import Mathlib

/-!
Verification of the Fault Lifecycle Engine of the digital_twin repository.

The definitions below are a shallow embedding of
`backend/fault_scenarios.py` (fault catalog, state-transition manager,
progression predictor) and of
`src/ai_agent.py` (`PumpDiagnosticAgent._detect_scenario_from_sensors`,
the weighted scenario classifier).

Modelling conventions:
* Python floats are modelled by `ℚ`.  Every constant in the source is a
  decimal literal and every comparison settled below is far from the
  binary rounding error of a double, so exact rational arithmetic agrees
  with the float computation on all inputs considered.
* Python dicts keyed by strings are modelled by an if-chain lookup
  (insertion order is kept in a separate key list where iteration order
  matters).
* Python exceptions (`KeyError` on indexing an unknown current state)
  are modelled by `Option`: `none` marks the raising execution.
* Mutation of `StateTransitionManager.current_state` is modelled by
  explicit state passing: `transition_to` returns the new state next to
  the returned triple.
-/

/-- Severity levels, `class Severity(Enum)` in `fault_scenarios.py`. -/
inductive Severity where
  | NORMAL
  | LOW
  | MEDIUM
  | HIGH
  | CRITICAL
deriving DecidableEq, Repr

/-- Numeric value of a severity level (`Severity.value` in Python). -/
def Severity.val : Severity → ℕ
  | .NORMAL => 0
  | .LOW => 1
  | .MEDIUM => 2
  | .HIGH => 3
  | .CRITICAL => 4

/-- Name of a severity level (`Severity.name` in Python). -/
def Severity.sname : Severity → String
  | .NORMAL => "NORMAL"
  | .LOW => "LOW"
  | .MEDIUM => "MEDIUM"
  | .HIGH => "HIGH"
  | .CRITICAL => "CRITICAL"

/-- `@dataclass FaultProgression`: one outgoing progression edge.
Probabilities in the catalog are integer percentages, kept as `ℕ`. -/
structure FaultProgression where
  target_fault : String
  probability : ℕ
  time_to_progress : String
  trigger_conditions : String
  prevention_action : String
deriving DecidableEq, Repr

/-- `@dataclass FaultScenario`.  The purely descriptive fields that no
embedded function reads (symptoms, causes, repair_action,
maintenance_time, sensor_effects, manual_page) are omitted. -/
structure FaultScenario where
  id : String
  name : String
  display_name : String
  icon : String
  severity : Severity
  category : String
  description : String
  can_progress_to : Option (List FaultProgression) := none
deriving DecidableEq, Repr

def scNORMAL : FaultScenario :=
  { id := "NORMAL", name := "Normal Operation",
    display_name := "🟢 Normal Operation", icon := "✅",
    severity := .NORMAL, category := "normal",
    description := "Pump operating within normal parameters. All sensors indicate optimal values." }

def scFILTER_CLOGGING : FaultScenario :=
  { id := "FILTER_CLOGGING", name := "Filter Clogging",
    display_name := "🔶 Filter Clogging", icon := "🧹",
    severity := .LOW, category := "hydraulic",
    description := "Inlet strainer is becoming clogged, slightly reducing flow rate.",
    can_progress_to := some
      [ { target_fault := "CAVITATION", probability := 65,
          time_to_progress := "2-4 hours",
          trigger_conditions := "Continued operation with clogged filter reduces NPSH",
          prevention_action := "Clean filter immediately. Check inlet pressure is above 0.5 bar" },
        { target_fault := "IMPELLER_WEAR", probability := 25,
          time_to_progress := "1-2 weeks",
          trigger_conditions := "Debris passing through damages impeller",
          prevention_action := "Install finer mesh strainer. Improve water source filtration" },
        { target_fault := "OVERLOAD", probability := 10,
          time_to_progress := "4-8 hours",
          trigger_conditions := "Severe blockage causes motor strain",
          prevention_action := "Stop pump and clear blockage before motor current rises >15A" } ] }

def scMINOR_VIBRATION : FaultScenario :=
  { id := "MINOR_VIBRATION", name := "Minor Vibration Increase",
    display_name := "🔶 Minor Vibration", icon := "📳",
    severity := .LOW, category := "mechanical",
    description := "Slight vibration increase detected. Monitoring recommended.",
    can_progress_to := some
      [ { target_fault := "BEARING_WEAR", probability := 55,
          time_to_progress := "1-4 weeks",
          trigger_conditions := "Unaddressed vibration accelerates bearing degradation",
          prevention_action := "Check and tighten all mounting bolts. Verify alignment with dial indicator" },
        { target_fault := "IMPELLER_WEAR", probability := 30,
          time_to_progress := "2-6 weeks",
          trigger_conditions := "Imbalance causes uneven impeller wear",
          prevention_action := "Balance impeller if vibration >4mm/s. Check for debris on impeller" },
        { target_fault := "SEAL_LEAK", probability := 15,
          time_to_progress := "1-3 weeks",
          trigger_conditions := "Vibration damages mechanical seal faces",
          prevention_action := "Reduce vibration below 3mm/s. Inspect seal for wear marks" } ] }

def scCAVITATION : FaultScenario :=
  { id := "CAVITATION", name := "Cavitation",
    display_name := "🟠 Cavitation", icon := "💧",
    severity := .MEDIUM, category := "hydraulic",
    description := "Vapor bubbles forming in fluid causing progressive impeller damage.",
    can_progress_to := some
      [ { target_fault := "IMPELLER_WEAR", probability := 60,
          time_to_progress := "2-7 days",
          trigger_conditions := "Bubble collapse erodes impeller material",
          prevention_action := "Increase inlet pressure above 2 bar. Lower fluid temp below 60°C" },
        { target_fault := "BEARING_WEAR", probability := 25,
          time_to_progress := "1-3 weeks",
          trigger_conditions := "Cavitation-induced vibration damages bearings",
          prevention_action := "Eliminate cavitation noise. Keep vibration below 5mm/s" },
        { target_fault := "SEAL_LEAK", probability := 15,
          time_to_progress := "1-2 weeks",
          trigger_conditions := "Pressure fluctuations damage seal",
          prevention_action := "Stabilize inlet pressure. Check seal flush system is working" } ] }

def scIMPELLER_WEAR : FaultScenario :=
  { id := "IMPELLER_WEAR", name := "Impeller Wear",
    display_name := "🟠 Impeller Wear", icon := "⚙️",
    severity := .MEDIUM, category := "mechanical",
    description := "Impeller showing wear signs, reducing pumping efficiency.",
    can_progress_to := some
      [ { target_fault := "OVERLOAD", probability := 50,
          time_to_progress := "1-3 days",
          trigger_conditions := "Motor works harder to compensate for reduced efficiency",
          prevention_action := "Monitor motor current closely. Replace impeller when current >12A continuously" },
        { target_fault := "BEARING_WEAR", probability := 35,
          time_to_progress := "1-2 weeks",
          trigger_conditions := "Imbalanced worn impeller stresses bearings",
          prevention_action := "Schedule impeller replacement within 1 week. Check bearing temperature daily" },
        { target_fault := "PUMP_SEIZURE", probability := 15,
          time_to_progress := "2-4 weeks",
          trigger_conditions := "Severe wear causes impeller contact with casing",
          prevention_action := "Stop pump if unusual noise heard. Inspect clearances before catastrophic failure" } ] }

def scSEAL_LEAK : FaultScenario :=
  { id := "SEAL_LEAK", name := "Mechanical Seal Leak",
    display_name := "🟠 Seal Leak", icon := "💦",
    severity := .MEDIUM, category := "mechanical",
    description := "Mechanical seal has a leak. Short-term intervention required.",
    can_progress_to := some
      [ { target_fault := "BEARING_WEAR", probability := 45,
          time_to_progress := "3-7 days",
          trigger_conditions := "Leaking fluid contaminates bearing lubricant",
          prevention_action := "Replace seal immediately. Clean and re-grease bearings after seal change" },
        { target_fault := "WINDING_DEFECT", probability := 35,
          time_to_progress := "1-2 weeks",
          trigger_conditions := "Moisture ingress damages motor insulation",
          prevention_action := "Protect motor from leaking fluid. Check insulation resistance with megger" },
        { target_fault := "PUMP_SEIZURE", probability := 20,
          time_to_progress := "1-3 weeks",
          trigger_conditions := "Total seal failure leads to dry running",
          prevention_action := "Monitor seal leakage rate. Stop pump if leak becomes a stream" } ] }

def scBEARING_WEAR : FaultScenario :=
  { id := "BEARING_WEAR", name := "Bearing Wear",
    display_name := "🔴 Bearing Wear", icon := "🔧",
    severity := .HIGH, category := "mechanical",
    description := "Bearings showing advanced wear signs. Urgent intervention recommended.",
    can_progress_to := some
      [ { target_fault := "PUMP_SEIZURE", probability := 70,
          time_to_progress := "2-24 hours",
          trigger_conditions := "Complete bearing failure causes rotor seizure",
          prevention_action := "STOP PUMP NOW. Do not operate with vibration >8mm/s or temp >85°C" },
        { target_fault := "OVERLOAD", probability := 30,
          time_to_progress := "1-4 hours",
          trigger_conditions := "Increased friction causes motor overload",
          prevention_action := "Monitor current closely. Stop if current exceeds 20A for >5 minutes" } ] }

def scWINDING_DEFECT : FaultScenario :=
  { id := "WINDING_DEFECT", name := "Motor Winding Defect",
    display_name := "🔴 Winding Defect", icon := "⚡",
    severity := .HIGH, category := "electrical",
    description := "Defect detected in motor winding. Imminent failure risk.",
    can_progress_to := some
      [ { target_fault := "OVERLOAD", probability := 80,
          time_to_progress := "30 min - 2 hours",
          trigger_conditions := "Short circuit increases current draw rapidly",
          prevention_action := "STOP IMMEDIATELY. Test insulation resistance - must be >1MΩ" },
        { target_fault := "PUMP_SEIZURE", probability := 20,
          time_to_progress := "1-4 hours",
          trigger_conditions := "Complete motor failure stops pump",
          prevention_action := "Do not attempt restart. Motor requires professional inspection" } ] }

def scSUPPLY_FAULT : FaultScenario :=
  { id := "SUPPLY_FAULT", name := "Power Supply Fault",
    display_name := "🔴 Supply Fault", icon := "🔌",
    severity := .HIGH, category := "electrical",
    description := "Electrical supply problem detected. Verification required.",
    can_progress_to := some
      [ { target_fault := "WINDING_DEFECT", probability := 50,
          time_to_progress := "2-8 hours",
          trigger_conditions := "Phase imbalance causes uneven heating in windings",
          prevention_action := "Check phase balance - must be within 2%. Repair supply before restart" },
        { target_fault := "OVERLOAD", probability := 35,
          time_to_progress := "1-4 hours",
          trigger_conditions := "Single phasing causes remaining phases to overload",
          prevention_action := "Verify all 3 phases present. Check fuses and contactors" },
        { target_fault := "BEARING_WEAR", probability := 15,
          time_to_progress := "1-2 weeks",
          trigger_conditions := "Voltage fluctuations cause inconsistent motor torque",
          prevention_action := "Install voltage stabilizer. Monitor power quality continuously" } ] }

def scOVERLOAD : FaultScenario :=
  { id := "OVERLOAD", name := "Motor Overload",
    display_name := "⛔ Motor Overload", icon := "🔥",
    severity := .CRITICAL, category := "electrical",
    description := "🚨 CRITICAL: Motor is overloaded. IMMEDIATE SHUTDOWN REQUIRED to avoid permanent damage.",
    can_progress_to := some
      [ { target_fault := "PUMP_SEIZURE", probability := 85,
          time_to_progress := "5-30 minutes",
          trigger_conditions := "Continued operation under overload destroys motor/bearings",
          prevention_action := "IMMEDIATE SHUTDOWN! Remove blockage and verify free rotation before restart" },
        { target_fault := "WINDING_DEFECT", probability := 15,
          time_to_progress := "10-60 minutes",
          trigger_conditions := "Overcurrent burns winding insulation",
          prevention_action := "Reduce load immediately. Check thermal protection settings" } ] }

def scPUMP_SEIZURE : FaultScenario :=
  { id := "PUMP_SEIZURE", name := "Pump Seizure",
    display_name := "⛔ Pump Seizure", icon := "🚫",
    severity := .CRITICAL, category := "mechanical",
    description := "🚨 CRITICAL: Pump is blocked or seized. IMMEDIATE STOP to avoid destruction." }

/-- The `FAULT_SCENARIOS` dict as an association list in insertion
order. -/
def scenarioList : List (String × FaultScenario) :=
  [ ("NORMAL", scNORMAL),
    ("FILTER_CLOGGING", scFILTER_CLOGGING),
    ("MINOR_VIBRATION", scMINOR_VIBRATION),
    ("CAVITATION", scCAVITATION),
    ("IMPELLER_WEAR", scIMPELLER_WEAR),
    ("SEAL_LEAK", scSEAL_LEAK),
    ("BEARING_WEAR", scBEARING_WEAR),
    ("WINDING_DEFECT", scWINDING_DEFECT),
    ("SUPPLY_FAULT", scSUPPLY_FAULT),
    ("OVERLOAD", scOVERLOAD),
    ("PUMP_SEIZURE", scPUMP_SEIZURE) ]

/-- Key lookup in the `FAULT_SCENARIOS` dict (`FAULT_SCENARIOS.get`). -/
def lookupScenario (sid : String) : Option FaultScenario :=
  if sid = "NORMAL" then some scNORMAL
  else if sid = "FILTER_CLOGGING" then some scFILTER_CLOGGING
  else if sid = "MINOR_VIBRATION" then some scMINOR_VIBRATION
  else if sid = "CAVITATION" then some scCAVITATION
  else if sid = "IMPELLER_WEAR" then some scIMPELLER_WEAR
  else if sid = "SEAL_LEAK" then some scSEAL_LEAK
  else if sid = "BEARING_WEAR" then some scBEARING_WEAR
  else if sid = "WINDING_DEFECT" then some scWINDING_DEFECT
  else if sid = "SUPPLY_FAULT" then some scSUPPLY_FAULT
  else if sid = "OVERLOAD" then some scOVERLOAD
  else if sid = "PUMP_SEIZURE" then some scPUMP_SEIZURE
  else none

/-- Consistency of the if-chain lookup with the association list. -/
theorem lookupScenario_consistent :
    scenarioList.all (fun p => lookupScenario p.1 = some p.2) = true := by decide

/-- Rejection message of transition rule 4 (critical current state). -/
def criticalReason : String :=
  "⛔ Critical state! You must first repair (return to Normal) before simulating another fault."

/-- Rejection message of transition rule 5 (downgrade to lesser fault). -/
def downgradeReason (current target : FaultScenario) : String :=
  "⚠️ Cannot transition from " ++ current.severity.sname ++ " state (" ++
    current.display_name ++ ") to a less severe state (" ++ target.display_name ++
    "). First repair by clicking 'Normal Operation'."

/-- Body of `StateTransitionManager.can_transition_to` after both
scenarios have been fetched from the catalog: the severity rules,
evaluated in source order. -/
def transitionRule (current target : FaultScenario) : Bool × String :=
  if current.severity = Severity.NORMAL then
    (true, "Transition allowed from normal state")
  else if target.severity = Severity.NORMAL then
    (true, "Repair/Reset allowed")
  else if current.severity = Severity.CRITICAL then
    (false, criticalReason)
  else if target.severity.val < current.severity.val then
    (false, downgradeReason current target)
  else
    (true, "Transition allowed")

/-- `StateTransitionManager.can_transition_to`: the unknown-target check
comes first; then `FAULT_SCENARIOS[self.current_state]` is indexed,
which raises `KeyError` (modelled by `none`) for an unknown current
state. -/
def can_transition_to (current_state target_state : String) : Option (Bool × String) :=
  match lookupScenario target_state with
  | none => some (false, "Unknown state: " ++ target_state)
  | some target =>
    match lookupScenario current_state with
    | none => none
    | some current => some (transitionRule current target)

/-- `StateTransitionManager.get_allowed_transitions`: filter the catalog
keys, in insertion order, by `can_transition_to`.  The first
`can_transition_to` call raises (`none`) exactly when the current state
is unknown. -/
def get_allowed_transitions (current_state : String) : Option (List String) :=
  match lookupScenario current_state with
  | none => none
  | some _ =>
    some ((scenarioList.map Prod.fst).filter (fun sid =>
      match can_transition_to current_state sid with
      | some p => p.1
      | none => false))

/-- `StateTransitionManager.transition_to`.  The result pairs the
returned triple `(success, message, new_scenario)` with the value of
`self.current_state` after the call. -/
def transition_to (current_state target_state : String) :
    Option ((Bool × String × Option FaultScenario) × String) :=
  match can_transition_to current_state target_state with
  | none => none
  | some (can_go, reason) =>
    if can_go then
      match lookupScenario target_state with
      | none => none
      | some new_scenario =>
        if target_state = "NORMAL" then
          match lookupScenario current_state with
          | none => none
          | some old_scenario =>
            some ((true,
              "✅ System repaired! Back to normal operation. (was: " ++
                old_scenario.display_name ++ ")",
              some new_scenario), target_state)
        else
          some ((true,
            "⚠️ " ++ new_scenario.display_name ++ " injected. " ++
              new_scenario.description,
            some new_scenario), target_state)
    else
      some ((false, reason, none), current_state)

/-- One entry of the list built by `get_fault_progression`: the dict
with the edge data joined with the target scenario's metadata. -/
structure ProgEntry where
  target_fault : String
  target_name : String
  target_icon : String
  target_severity : ℕ
  target_severity_name : String
  probability : ℕ
  time_to_progress : String
  trigger_conditions : String
  prevention_action : String
deriving DecidableEq, Repr

/-- The entry built for one `FaultProgression` edge; edges whose target
is not a catalog key are dropped (`if target:` in the source).  An empty
`prevention_action` falls back to the default text (Python `or`). -/
def entryForEdge (pr : FaultProgression) : Option ProgEntry :=
  match lookupScenario pr.target_fault with
  | none => none
  | some target =>
    some { target_fault := pr.target_fault,
           target_name := target.display_name,
           target_icon := target.icon,
           target_severity := target.severity.val,
           target_severity_name := target.severity.sname,
           probability := pr.probability,
           time_to_progress := pr.time_to_progress,
           trigger_conditions := pr.trigger_conditions,
           prevention_action :=
             if pr.prevention_action = "" then "No specific action defined"
             else pr.prevention_action }

/-- Insert into a list sorted by probability descending, after all
elements with a strictly higher probability and before equal ones that
came later in the original list. -/
def insDesc (e : ProgEntry) : List ProgEntry → List ProgEntry
  | [] => [e]
  | x :: xs =>
    if x.probability ≤ e.probability then e :: x :: xs
    else x :: insDesc e xs

/-- Stable sort by probability descending.  Embeds Python's
`progressions.sort(key=lambda x: x["probability"], reverse=True)`:
`list.sort` is a stable sort, and with `reverse=True` elements with
equal keys keep their original relative order. -/
def sortByProbDesc (l : List ProgEntry) : List ProgEntry :=
  l.foldr insDesc []

/-- The progression list in catalog declaration order, before sorting:
the loop body of `get_fault_progression`.  Unknown scenario ids and
scenarios with `can_progress_to = None` give the empty list. -/
def rawProgEntries (sid : String) : List ProgEntry :=
  match lookupScenario sid with
  | none => []
  | some s =>
    match s.can_progress_to with
    | none => []
    | some progs => progs.filterMap entryForEdge

/-- `get_fault_progression`: build the entries, then sort by probability
descending.  The source's early `return []` for an unknown id, a missing
`can_progress_to` or an empty edge list coincides with sorting the empty
entry list. -/
def get_fault_progression (sid : String) : List ProgEntry :=
  sortByProbDesc (rawProgEntries sid)

/-- A child node of the progression tree: a `get_fault_progression`
entry together with the `"children"` list spliced in by `build_tree`. -/
inductive ChildNode where
  | mk (entry : ProgEntry) (children : List ChildNode)

def ChildNode.entry : ChildNode → ProgEntry
  | .mk e _ => e

def ChildNode.children : ChildNode → List ChildNode
  | .mk _ cs => cs

/-- The root dict returned by `build_tree`. -/
structure RootNode where
  fault_id : String
  fault_name : String
  severity : ℕ
  progressions : List ChildNode

/-- The inner `build_tree(fault_id, depth, visited)` of
`get_full_progression_chain`.  `None` is returned when the depth is
exhausted, the node is already on the current path, or the id is
unknown; the recursion passes each child a copy of the visited set
extended with the current node (`visited.copy()` per branch). -/
def build_tree : ℕ → String → List String → Option RootNode
  | 0, _, _ => none
  | depth + 1, fid, visited =>
    if fid ∈ visited then none
    else
      match lookupScenario fid with
      | none => none
      | some s =>
        let visited' := fid :: visited
        let children := (get_fault_progression fid).map (fun pr =>
          ChildNode.mk pr
            (match build_tree depth pr.target_fault visited' with
             | some t => t.progressions
             | none => []))
        some { fault_id := fid, fault_name := s.display_name,
               severity := s.severity.val, progressions := children }

/-- `get_full_progression_chain(scenario_id, max_depth=3)`. -/
def get_full_progression_chain (sid : String) (max_depth : ℕ := 3) : Option RootNode :=
  build_tree max_depth sid []

/-- Nodes on the longest root-to-leaf path below a list of children. -/
def heightList : List ChildNode → ℕ
  | [] => 0
  | c :: cs =>
    max (match c with | .mk _ gs => 1 + heightList gs) (heightList cs)

/-- Nodes on the longest root-to-leaf path of a returned tree, the root
included. -/
def rootPathNodes (t : RootNode) : ℕ :=
  1 + heightList t.progressions

/-- Detection thresholds of one fault scenario
(`PumpDiagnosticAgent.SCENARIO_THRESHOLDS`).  `description` and
`rag_query`, plain strings never read by the detection code, are
omitted.  A missing `priority` key defaults to 1
(`thresholds.get('priority', 1)`). -/
structure Thresholds where
  vibration_range : Option (ℚ × ℚ) := none
  temp_range : Option (ℚ × ℚ) := none
  current_range : Option (ℚ × ℚ) := none
  imbalance_range : Option (ℚ × ℚ) := none
  voltage_range : Option (ℚ × ℚ) := none
  voltage_high_range : Option (ℚ × ℚ) := none
  pressure_range : Option (ℚ × ℚ) := none
  flow_range : Option (ℚ × ℚ) := none
  priority : ℕ := 1
deriving DecidableEq, Repr

def thFILTER_CLOGGING : Thresholds :=
  { vibration_range := some (3/2, 7/2), pressure_range := some (7/2, 9/2),
    flow_range := some (12, 14), temp_range := some (60, 72), priority := 1 }

def thMINOR_VIBRATION : Thresholds :=
  { vibration_range := some (3, 9/2), temp_range := some (60, 72),
    current_range := some (9, 12), priority := 1 }

def thCAVITATION : Thresholds :=
  { vibration_range := some (9/2, 13/2), pressure_range := some (3/2, 3),
    flow_range := some (10, 14), temp_range := some (60, 75), priority := 2 }

def thIMPELLER_WEAR : Thresholds :=
  { vibration_range := some (4, 6), flow_range := some (10, 13),
    current_range := some (10, 13), pressure_range := some (7/2, 5),
    temp_range := some (60, 75), priority := 2 }

def thSEAL_LEAK : Thresholds :=
  { pressure_range := some (19/5, 5), temp_range := some (70, 80),
    vibration_range := some (2, 4), priority := 2 }

def thBEARING_WEAR : Thresholds :=
  { vibration_range := some (13/2, 19/2), temp_range := some (80, 95),
    current_range := some (10, 15), pressure_range := some (3, 11/2),
    priority := 3 }

def thWINDING_DEFECT : Thresholds :=
  { imbalance_range := some (8, 25), temp_range := some (85, 100),
    current_range := some (25, 35), vibration_range := some (11/2, 8),
    priority := 3 }

def thSUPPLY_FAULT : Thresholds :=
  { voltage_range := some (340, 375), voltage_high_range := some (425, 460),
    imbalance_range := some (5, 20), temp_range := some (70, 90),
    priority := 3 }

def thOVERLOAD : Thresholds :=
  { current_range := some (25, 45), temp_range := some (90, 105),
    vibration_range := some (15/2, 11), flow_range := some (3, 10),
    priority := 4 }

def thPUMP_SEIZURE : Thresholds :=
  { current_range := some (35, 60), temp_range := some (95, 120),
    vibration_range := some (9, 15), flow_range := some (0, 3),
    pressure_range := some (0, 2), priority := 4 }

/-- The non-NORMAL entries of `SCENARIO_THRESHOLDS`, in dict insertion
order.  The `"NORMAL"` key of the source dict has a different shape
(max/min bounds, no ranges) and is held separately below; the scoring
loop skips it with `continue`. -/
def scenarioThresholds : List (String × Thresholds) :=
  [ ("FILTER_CLOGGING", thFILTER_CLOGGING),
    ("MINOR_VIBRATION", thMINOR_VIBRATION),
    ("CAVITATION", thCAVITATION),
    ("IMPELLER_WEAR", thIMPELLER_WEAR),
    ("SEAL_LEAK", thSEAL_LEAK),
    ("BEARING_WEAR", thBEARING_WEAR),
    ("WINDING_DEFECT", thWINDING_DEFECT),
    ("SUPPLY_FAULT", thSUPPLY_FAULT),
    ("OVERLOAD", thOVERLOAD),
    ("PUMP_SEIZURE", thPUMP_SEIZURE) ]

/-- All keys of `SCENARIO_THRESHOLDS`, the NORMAL entry included (used
by the membership test `mapped in self.SCENARIO_THRESHOLDS`). -/
def thresholdKeys : List String :=
  "NORMAL" :: scenarioThresholds.map Prod.fst

/-- The `"NORMAL"` entry of `SCENARIO_THRESHOLDS`. -/
structure NormalBounds where
  vibration_max : ℚ
  temp_max : ℚ
  current_max : ℚ
  imbalance_max : ℚ
  voltage_min : ℚ
  voltage_max : ℚ
  pressure_min : ℚ
  flow_min : ℚ

def normalBounds : NormalBounds :=
  { vibration_max := 5/2, temp_max := 70, current_max := 12,
    imbalance_max := 3, voltage_min := 380, voltage_max := 420,
    pressure_min := 4, flow_min := 13 }

/-- One `(score, matches, total_checks)` contribution of a range check
in the scoring loop: full points and a match inside the range, the
given near-range points when the near-range test holds, nothing
otherwise; an absent range contributes nothing and is not counted. -/
def rangeCheck (range : Option (ℚ × ℚ)) (value full nearPts : ℚ)
    (nearTest : ℚ → ℚ → Bool) : ℚ × ℕ × ℕ :=
  match range with
  | none => (0, 0, 0)
  | some (lo, hi) =>
    if lo ≤ value ∧ value ≤ hi then (full, 1, 1)
    else if nearTest lo hi then (nearPts, 0, 1)
    else (0, 0, 1)

/-- The voltage block: inside `if 'voltage_range' in thresholds:` the
low range scores 1.2, and — independently, not as `elif` — the high
range (when defined) scores another 1.2. -/
def voltageCheck (vr vhr : Option (ℚ × ℚ)) (voltage : ℚ) : ℚ × ℕ × ℕ :=
  match vr with
  | none => (0, 0, 0)
  | some (lo, hi) =>
    let low : ℚ × ℕ :=
      if lo ≤ voltage ∧ voltage ≤ hi then (6/5, 1) else (0, 0)
    let high : ℚ × ℕ :=
      match vhr with
      | none => (0, 0)
      | some (lo2, hi2) =>
        if lo2 ≤ voltage ∧ voltage ≤ hi2 then (6/5, 1) else (0, 0)
    (low.1 + high.1, low.2 + high.2, 1)

/-- The second, duplicated pressure block (source lines 347-359): inside
the range a CAVITATION scenario with pressure below 2.5 scores 3.0,
anything else 1.0; the near test is `pressure > pmin * 0.8`. -/
def pressureCheck2 (sid : String) (pr : Option (ℚ × ℚ)) (pressure : ℚ) : ℚ × ℕ × ℕ :=
  match pr with
  | none => (0, 0, 0)
  | some (lo, hi) =>
    if lo ≤ pressure ∧ pressure ≤ hi then
      (if sid = "CAVITATION" ∧ pressure < 5/2 then 3 else 1, 1, 1)
    else if decide (pressure > lo * (4/5)) then (2/5, 0, 1)
    else (0, 0, 1)

/-- Componentwise sum of `(score, matches, total_checks)` triples. -/
def addT (a b : ℚ × ℕ × ℕ) : ℚ × ℕ × ℕ :=
  (a.1 + b.1, a.2.1 + b.2.1, a.2.2 + b.2.2)

/-- The whole scoring loop body for one scenario: the eight checks of
`_detect_scenario_from_sensors`, in source order (the pressure range is
checked twice, by two separate blocks). -/
def scoreScenario (sid : String) (th : Thresholds)
    (vibration temperature current imbalance voltage pressure flow : ℚ) :
    ℚ × ℕ × ℕ :=
  let rv := rangeCheck th.vibration_range vibration 2 (4/5)
    (fun lo hi => decide (vibration > lo * (9/10)) && decide (vibration < hi * (11/10)))
  let rt := rangeCheck th.temp_range temperature 2 (3/5)
    (fun lo hi => decide (temperature > lo * (19/20)) && decide (temperature < hi * (21/20)))
  let rc := rangeCheck th.current_range current (3/2) (2/5)
    (fun lo _ => decide (current > lo * (9/10)))
  let ri := rangeCheck th.imbalance_range imbalance (3/2) (1/2)
    (fun lo _ => decide (imbalance > lo * (7/10)))
  let rV := voltageCheck th.voltage_range th.voltage_high_range voltage
  let rp1 := rangeCheck th.pressure_range pressure 1 (2/5)
    (fun lo _ => decide (pressure < lo * (13/10)))
  let rf := rangeCheck th.flow_range flow 1 (3/10)
    (fun _ hi => decide (flow < hi * (6/5)))
  let rp2 := pressureCheck2 sid th.pressure_range pressure
  addT rv (addT rt (addT rc (addT ri (addT rV (addT rp1 (addT rf rp2))))))

/-- The per-scenario record stored in `scenario_scores` (the
`thresholds` back-reference is omitted). -/
structure ScoreInfo where
  score : ℚ
  confidence : ℚ
  matched : ℕ
  total_checks : ℕ
  priority : ℕ
deriving DecidableEq, Repr

/-- The tail of the loop body: normalize the score against the maximum
possible (`total_checks * 2`), add the priority boost when at least half
of the checks matched, cap at 100, and record the entry whenever
`total_checks > 0` (regardless of the score). -/
def scenarioEntry (sid : String) (th : Thresholds)
    (v t c imb V p f : ℚ) : Option (String × ScoreInfo) :=
  if sid = "NORMAL" then none
  else
    let r := scoreScenario sid th v t c imb V p f
    if r.2.2 > 0 then
      let base : ℚ := r.1 / ((r.2.2 : ℚ) * 2) * 100
      let boost : ℚ :=
        if (r.2.1 : ℚ) ≥ (r.2.2 : ℚ) * (1/2) then ((th.priority : ℚ) - 1) * 5 else 0
      some (sid, { score := r.1, confidence := min 100 (base + boost),
                   matched := r.2.1, total_checks := r.2.2,
                   priority := th.priority })
    else none

/-- The `scenario_scores` dict, as an association list in loop order. -/
def buildScores (v t c imb V p f : ℚ) : List (String × ScoreInfo) :=
  scenarioThresholds.filterMap (fun x => scenarioEntry x.1 x.2 v t c imb V p f)

/-- The `is_normal` test: every monitored dimension within the NORMAL
bounds. -/
def isNormalReading (v t c imb V p f : ℚ) : Prop :=
  v ≤ normalBounds.vibration_max ∧ t ≤ normalBounds.temp_max ∧
  c ≤ normalBounds.current_max ∧ imb ≤ normalBounds.imbalance_max ∧
  (normalBounds.voltage_min ≤ V ∧ V ≤ normalBounds.voltage_max) ∧
  p ≥ normalBounds.pressure_min ∧ f ≥ normalBounds.flow_min

instance (v t c imb V p f : ℚ) : Decidable (isNormalReading v t c imb V p f) := by
  unfold isNormalReading; infer_instance

/-- The `fault_mapping` dict: explicit fault labels to scenario ids. -/
def faultMapping (fault_state : String) : Option String :=
  if fault_state = "Winding Defect" then some "WINDING_DEFECT"
  else if fault_state = "Supply Fault" then some "SUPPLY_FAULT"
  else if fault_state = "Cavitation" then some "CAVITATION"
  else if fault_state = "Bearing Wear" then some "BEARING_WEAR"
  else if fault_state = "Overload" then some "OVERLOAD"
  else if fault_state = "Pump Seizure" then some "PUMP_SEIZURE"
  else if fault_state = "Filter Clogging" then some "FILTER_CLOGGING"
  else if fault_state = "Minor Vibration" then some "MINOR_VIBRATION"
  else if fault_state = "Impeller Wear" then some "IMPELLER_WEAR"
  else if fault_state = "Seal Leak" then some "SEAL_LEAK"
  else none

/-- A telemetry sample (`sensor_data` dict): every dimension optional,
as is the nested `amperage` dict and the explicit `fault_state` label. -/
structure SensorData where
  amperage_average : Option ℚ := none
  amperage_imbalance_pct : Option ℚ := none
  voltage : Option ℚ := none
  vibration : Option ℚ := none
  temperature : Option ℚ := none
  pressure : Option ℚ := none
  flow_rate : Option ℚ := none
  fault_state : Option String := none

/-- The `.get(key, default)` extraction at the top of
`_detect_scenario_from_sensors`, in source order: voltage 400,
vibration 1.5, temperature 65, pressure 5, flow 15, amperage average 10,
amperage imbalance 0. -/
def extractReadings (d : SensorData) : ℚ × ℚ × ℚ × ℚ × ℚ × ℚ × ℚ :=
  (d.vibration.getD (3/2), d.temperature.getD 65,
   d.amperage_average.getD 10, d.amperage_imbalance_pct.getD 0,
   d.voltage.getD 400, d.pressure.getD 5, d.flow_rate.getD 15)

/-- The best entry of `scenario_scores`, mirroring
`sorted(scenario_scores.items(), key=lambda x: (priority, confidence),
reverse=True)[0]`: Python's sort is stable and `reverse=True` keeps the
original order of equal keys, so the head of the sorted list is the
earliest entry with the lexicographically maximal
`(priority, confidence)` key. -/
def pickBest : List (String × ScoreInfo) → Option (String × ScoreInfo)
  | [] => none
  | x :: xs =>
    some (xs.foldl (fun best y =>
      if best.2.priority < y.2.priority ∨
         (best.2.priority = y.2.priority ∧ best.2.confidence < y.2.confidence)
      then y else best) x)

/-- The sensor-based fallback (the "SECOND" block of the source): the
best-scoring scenario when its confidence clears the 35 floor,
otherwise the UNKNOWN sentinel at confidence 30; also UNKNOWN when the
score dict is empty (`if scenario_scores:` fails). -/
def fromSensors (scores : List (String × ScoreInfo)) : String × ℚ :=
  match pickBest scores with
  | some best =>
    if best.2.confidence > 35 then (best.1, best.2.confidence) else ("UNKNOWN", 30)
  | none => ("UNKNOWN", 30)

/-- Core of `_detect_scenario_from_sensors` on the extracted readings
and the extracted `fault_state` string.  Returns the
`(scenario_id, confidence)` pair (the heterogeneous `scenario_info`
dict returned alongside them carries no further decision content and is
omitted).  Control flow in source order: score every scenario; return
NORMAL at 100 when the reading is normal AND the score dict is empty;
return the mapped explicit label at 95; otherwise fall back to the
sensor-based detection. -/
def detectCore (v t c imb V p f : ℚ) (fault_state : String) : String × ℚ :=
  let scores := buildScores v t c imb V p f
  if isNormalReading v t c imb V p f ∧ scores = [] then
    ("NORMAL", 100)
  else if fault_state ≠ "" ∧ fault_state ≠ "Normal" then
    match faultMapping fault_state with
    | some mapped =>
      if mapped ∈ thresholdKeys then (mapped, 95) else fromSensors scores
    | none => fromSensors scores
  else fromSensors scores

/-- `PumpDiagnosticAgent._detect_scenario_from_sensors`, as a function
of the whole sample. -/
def detect_scenario_from_sensors (d : SensorData) : String × ℚ :=
  let r := extractReadings d
  detectCore r.1 r.2.1 r.2.2.1 r.2.2.2.1 r.2.2.2.2.1 r.2.2.2.2.2.1 r.2.2.2.2.2.2
    (d.fault_state.getD "Normal")

set_option maxHeartbeats 1000000 in
/-- Only the key `"NORMAL"` maps to a scenario of NORMAL severity. -/
theorem lookup_severity_normal {t : String} {tgt : FaultScenario}
    (h : lookupScenario t = some tgt) (hs : tgt.severity = Severity.NORMAL) :
    t = "NORMAL" := by
  unfold lookupScenario at h
  split_ifs at h with h1 h2 h3 h4 h5 h6 h7 h8 h9 h10 h11
  · exact h1
  all_goals
    first
      | exact Option.noConfusion h
      | (injection h with he; subst he; exact absurd hs (by decide))

set_option maxHeartbeats 1000000 in
/-- The keys of CRITICAL severity are exactly OVERLOAD and
PUMP_SEIZURE. -/
theorem lookup_severity_critical {s : String} {c : FaultScenario}
    (h : lookupScenario s = some c) (hc : c.severity = Severity.CRITICAL) :
    s = "OVERLOAD" ∨ s = "PUMP_SEIZURE" := by
  unfold lookupScenario at h
  split_ifs at h with h1 h2 h3 h4 h5 h6 h7 h8 h9 h10 h11
  all_goals
    first
      | exact Or.inl h10
      | exact Or.inr h11
      | exact Option.noConfusion h
      | (injection h with he; subst he; exact absurd hc (by decide))

/-- C1: on a rejected transition `transition_to` returns the rejection
reason with no scenario and leaves the current state exactly as it was;
on an accepted transition it returns success with the new scenario and
the state after the call is the target id (one total update of the
single mutable field). -/
theorem C1_transition_to_atomic (cur target : String) (b : Bool) (reason : String)
    (h : can_transition_to cur target = some (b, reason)) :
    (b = false → transition_to cur target = some ((false, reason, none), cur)) ∧
    (b = true → ∃ msg ns, transition_to cur target = some ((true, msg, some ns), target)) := by
  constructor
  · intro hb
    subst hb
    simp [transition_to, h]
  · intro hb
    subst hb
    rcases ht : lookupScenario target with _ | tgt
    · simp [can_transition_to, ht] at h
    · rcases hcur : lookupScenario cur with _ | c
      · simp [can_transition_to, ht, hcur] at h
      · by_cases hN : target = "NORMAL"
        · subst hN
          exact ⟨"✅ System repaired! Back to normal operation. (was: " ++
              c.display_name ++ ")", tgt, by simp [transition_to, h, ht, hcur]⟩
        · exact ⟨"⚠️ " ++ tgt.display_name ++ " injected. " ++ tgt.description,
            tgt, by simp [transition_to, h, ht, hN]⟩

/-- Witness for C1 at a concrete rejected and accepted pair: from
OVERLOAD the transition to CAVITATION is rejected without a state
change. -/
theorem C1_transition_to_atomic_witness :
    transition_to "OVERLOAD" "CAVITATION" = some ((false, criticalReason, none), "OVERLOAD") :=
  (C1_transition_to_atomic "OVERLOAD" "CAVITATION" false criticalReason rfl).1 rfl

/-- C2: from a current state of CRITICAL severity, `can_transition_to`
accepts exactly the target `"NORMAL"`, and `get_allowed_transitions`
returns exactly the singleton list `["NORMAL"]`. -/
theorem C2_critical_only_normal (s : String) (c : FaultScenario)
    (hs : lookupScenario s = some c) (hc : c.severity = Severity.CRITICAL) :
    (∀ t b reason, can_transition_to s t = some (b, reason) → (b = true ↔ t = "NORMAL")) ∧
    get_allowed_transitions s = some ["NORMAL"] := by
  constructor
  · intro t b reason h
    constructor
    · intro hb
      subst hb
      rcases ht : lookupScenario t with _ | tgt
      · simp [can_transition_to, ht] at h
      · have hcan : can_transition_to s t = some (transitionRule c tgt) := by
          unfold can_transition_to; rw [ht, hs]
        have he : transitionRule c tgt = (true, reason) :=
          Option.some.inj (hcan.symm.trans h)
        unfold transitionRule at he
        split_ifs at he with g1 g2 g3 g4
        · exact absurd g1 (by rw [hc]; decide)
        · exact lookup_severity_normal ht g2
        · exact absurd he (by simp)
    · intro htn
      subst htn
      have hcan : can_transition_to s "NORMAL" = some (transitionRule c scNORMAL) := by
        unfold can_transition_to
        rw [show lookupScenario "NORMAL" = some scNORMAL from rfl, hs]
      have he : transitionRule c scNORMAL = (b, reason) :=
        Option.some.inj (hcan.symm.trans h)
      unfold transitionRule at he
      split_ifs at he with g1 g2
      all_goals
        first
          | (injection he with hb hr; exact hb.symm)
          | (exact absurd (show scNORMAL.severity = Severity.NORMAL by decide) g2)
  · rcases lookup_severity_critical hs hc with h | h <;> subst h <;> decide

/-- Witness for C2 at the concrete state PUMP_SEIZURE. -/
theorem C2_critical_only_normal_witness :
    (∀ t b reason, can_transition_to "PUMP_SEIZURE" t = some (b, reason) → (b = true ↔ t = "NORMAL")) ∧
    get_allowed_transitions "PUMP_SEIZURE" = some ["NORMAL"] :=
  C2_critical_only_normal "PUMP_SEIZURE" scPUMP_SEIZURE rfl rfl

/-- C3: from a current state of non-NORMAL severity, every catalog
target of strictly smaller severity other than `"NORMAL"` is rejected. -/
theorem C3_no_downgrade (s t : String) (cs ts : FaultScenario)
    (hs : lookupScenario s = some cs) (ht : lookupScenario t = some ts)
    (hns : cs.severity ≠ Severity.NORMAL)
    (hlt : ts.severity.val < cs.severity.val) (htn : t ≠ "NORMAL") :
    ∃ reason, can_transition_to s t = some (false, reason) := by
  have hcan : can_transition_to s t = some (transitionRule cs ts) := by
    unfold can_transition_to; rw [ht, hs]
  rw [hcan]
  unfold transitionRule
  split_ifs with g1 g2 g3 g4
  · exact absurd g1 hns
  · exact absurd (lookup_severity_normal ht g2) htn
  · exact ⟨criticalReason, rfl⟩
  · exact ⟨downgradeReason cs ts, rfl⟩

/-- Witness for C3: BEARING_WEAR (HIGH) to CAVITATION (MEDIUM) is
rejected. -/
theorem C3_no_downgrade_witness :
    ∃ reason, can_transition_to "BEARING_WEAR" "CAVITATION" = some (false, reason) :=
  C3_no_downgrade "BEARING_WEAR" "CAVITATION" scBEARING_WEAR scCAVITATION rfl rfl
    (by decide) (by decide) (by decide)

/-- C9: catalog referential integrity — every progression edge of every
scenario targets an existing catalog key, and never the scenario's own
id. -/
theorem C9_catalog_integrity :
    ∀ p ∈ scenarioList, ∀ e ∈ p.2.can_progress_to.getD [],
      (lookupScenario e.target_fault).isSome = true ∧ e.target_fault ≠ p.2.id := by
  decide

/-- Witness for C9 at the first edge of FILTER_CLOGGING. -/
theorem C9_catalog_integrity_witness :
    (lookupScenario "CAVITATION").isSome = true ∧ ("CAVITATION" : String) ≠ scFILTER_CLOGGING.id :=
  C9_catalog_integrity ("FILTER_CLOGGING", scFILTER_CLOGGING) (by decide)
    ⟨"CAVITATION", 65, "2-4 hours",
     "Continued operation with clogged filter reduces NPSH",
     "Clean filter immediately. Check inlet pressure is above 0.5 bar"⟩ (by decide)

/-- Membership in an `insDesc` insertion. -/
theorem mem_insDesc {y e : ProgEntry} {l : List ProgEntry} :
    y ∈ insDesc e l ↔ y = e ∨ y ∈ l := by
  induction l with
  | nil => simp [insDesc]
  | cons x xs ih =>
    unfold insDesc
    split_ifs with hle
    · simp [List.mem_cons]
    · rw [List.mem_cons, ih, List.mem_cons]
      tauto

/-- `insDesc` preserves sortedness by probability descending. -/
theorem pairwise_insDesc (e : ProgEntry) {l : List ProgEntry}
    (h : l.Pairwise (fun a b => b.probability ≤ a.probability)) :
    (insDesc e l).Pairwise (fun a b => b.probability ≤ a.probability) := by
  induction l with
  | nil => simp [insDesc]
  | cons x xs ih =>
    rcases List.pairwise_cons.mp h with ⟨hx, hxs⟩
    unfold insDesc
    split_ifs with hle
    · refine List.pairwise_cons.mpr ⟨?_, h⟩
      intro y hy
      rcases List.mem_cons.mp hy with rfl | hy'
      · exact hle
      · exact le_trans (hx y hy') hle
    · refine List.pairwise_cons.mpr ⟨?_, ih hxs⟩
      intro y hy
      rcases mem_insDesc.mp hy with rfl | hy'
      · omega
      · exact hx y hy'

/-- The sort output is sorted by probability descending. -/
theorem sorted_sortByProbDesc (l : List ProgEntry) :
    (sortByProbDesc l).Pairwise (fun a b => b.probability ≤ a.probability) := by
  induction l with
  | nil => simp [sortByProbDesc]
  | cons x xs ih => exact pairwise_insDesc x ih

/-- Stability of one insertion: filtering at any fixed probability, the
inserted element lands in front exactly when it has that probability,
and the rest keeps its order (the skipped prefix has strictly larger
probabilities). -/
theorem filter_insDesc (q : ℕ) (e : ProgEntry) (l : List ProgEntry) :
    (insDesc e l).filter (fun x => decide (x.probability = q)) =
      if e.probability = q then
        e :: l.filter (fun x => decide (x.probability = q))
      else l.filter (fun x => decide (x.probability = q)) := by
  induction l with
  | nil =>
    simp only [insDesc, List.filter]
    split_ifs with hq <;> simp [hq]
  | cons x xs ih =>
    unfold insDesc
    split_ifs with hle hq
    · simp [List.filter_cons, hq]
    · simp [List.filter_cons, hq]
    · rw [List.filter_cons, List.filter_cons, ih]
      split_ifs <;> simp_all
    · rw [List.filter_cons, List.filter_cons, ih]
      split_ifs <;> simp_all

/-- Stability of the whole sort: at every fixed probability the sorted
list keeps the original (declaration) order of the entries. -/
theorem filter_sortByProbDesc (q : ℕ) (l : List ProgEntry) :
    (sortByProbDesc l).filter (fun x => decide (x.probability = q)) =
      l.filter (fun x => decide (x.probability = q)) := by
  induction l with
  | nil => rfl
  | cons x xs ih =>
    show (insDesc x (sortByProbDesc xs)).filter _ = _
    rw [filter_insDesc, List.filter_cons]
    split_ifs with hx hx <;> simp_all

/-- C7: `get_fault_progression` is sorted by probability descending;
entries of equal probability keep their catalog declaration order
(filtering the result at any probability returns the declared order);
an unknown id gives the empty list, as does the terminal PUMP_SEIZURE
scenario; on FILTER_CLOGGING the probabilities come out 65, 25, 10. -/
theorem C7_forecast_sorted_stable_total :
    (∀ sid, (get_fault_progression sid).Pairwise
        (fun a b => b.probability ≤ a.probability)) ∧
    (∀ sid q, (get_fault_progression sid).filter (fun x => decide (x.probability = q)) =
        (rawProgEntries sid).filter (fun x => decide (x.probability = q))) ∧
    (∀ sid, lookupScenario sid = none → get_fault_progression sid = []) ∧
    get_fault_progression "PUMP_SEIZURE" = [] ∧
    (get_fault_progression "FILTER_CLOGGING").map (fun e => e.probability) = [65, 25, 10] := by
  refine ⟨fun sid => sorted_sortByProbDesc _, fun sid q => filter_sortByProbDesc q _,
    fun sid h => ?_, by decide, by decide⟩
  unfold get_fault_progression rawProgEntries
  rw [h]
  rfl

/-- Witness for C7 at an id outside the catalog. -/
theorem C7_forecast_sorted_stable_total_witness :
    get_fault_progression "UNDEFINED_FAULT" = [] :=
  C7_forecast_sorted_stable_total.2.2.1 "UNDEFINED_FAULT" rfl

/-- A list of children whose members each have bounded height has
bounded height. -/
theorem heightList_le {n : ℕ} {cs : List ChildNode}
    (h : ∀ c ∈ cs, 1 + heightList c.children ≤ n) : heightList cs ≤ n := by
  induction cs with
  | nil => simp [heightList]
  | cons c cs ih =>
    rcases c with ⟨e, gs⟩
    unfold heightList
    refine max_le ?_ (ih fun c hc => h c (List.mem_cons_of_mem _ hc))
    exact h ⟨e, gs⟩ (List.mem_cons_self _ _)

/-- Depth bound of the children of a built tree: a tree built with
depth budget `d` has children of height at most `d`. -/
theorem build_tree_children_height :
    ∀ (d : ℕ) (fid : String) (visited : List String) (t : RootNode),
      build_tree d fid visited = some t → heightList t.progressions ≤ d := by
  intro d
  induction d with
  | zero => intro fid visited t h; cases h
  | succ d ih =>
    intro fid visited t h
    unfold build_tree at h
    split_ifs at h with hv
    rcases hl : lookupScenario fid with _ | s
    · rw [hl] at h; cases h
    · rw [hl] at h
      injection h with he
      subst he
      refine heightList_le ?_
      intro c hc
      rcases List.mem_map.mp hc with ⟨pr, _, rfl⟩
      show 1 + heightList (match build_tree d pr.target_fault (fid :: visited) with
        | some t => t.progressions
        | none => []) ≤ d + 1
      cases hsub : build_tree d pr.target_fault (fid :: visited) with
      | none =>
        show 1 + heightList [] ≤ d + 1
        simp [heightList]
      | some sub =>
        show 1 + heightList sub.progressions ≤ d + 1
        have := ih pr.target_fault (fid :: visited) sub hsub
        omega

/-- Depth bound of `build_tree`: a tree built with depth budget `d` has
no root-to-leaf path of more than `d + 1` nodes (the deepest entries on
a path are unexpanded children). -/
theorem build_tree_depth_bound :
    ∀ (d : ℕ) (fid : String) (visited : List String) (t : RootNode),
      build_tree d fid visited = some t → rootPathNodes t ≤ d + 1 := by
  intro d fid visited t h
  have := build_tree_children_height d fid visited t h
  unfold rootPathNodes
  omega

/-- Pruning of `build_tree`: a child whose target already lies on the
current branch's path (the current node included) gets an empty child
list. -/
theorem build_tree_pruned :
    ∀ (d : ℕ) (fid : String) (visited : List String) (t : RootNode),
      build_tree d fid visited = some t →
      ∀ c ∈ t.progressions, c.entry.target_fault ∈ fid :: visited →
        c.children = [] := by
  intro d fid visited t h c hc hmem
  cases d with
  | zero => cases h
  | succ d =>
    unfold build_tree at h
    split_ifs at h with hv
    rcases hl : lookupScenario fid with _ | s
    · rw [hl] at h; cases h
    · rw [hl] at h
      injection h with he
      subst he
      rcases List.mem_map.mp hc with ⟨pr, _, rfl⟩
      have hnone : build_tree d pr.target_fault (fid :: visited) = none := by
        cases d with
        | zero => rfl
        | succ d' =>
          unfold build_tree
          rw [if_pos (by exact hmem)]
      show (match build_tree d pr.target_fault (fid :: visited) with
        | some t => t.progressions
        | none => []) = []
      rw [hnone]

/-- C8 (amended): the depth-bounded tree builder terminates on the
catalog even along its cycle OVERLOAD to WINDING_DEFECT back to
OVERLOAD; a returned tree has no root-to-leaf path of more than
`max_depth + 1` nodes (not `max_depth`: the deepest path entry is an
unexpanded child); and a child already visited on the current branch's
path is pruned to an empty child list, the visited set being a per
branch value so siblings cannot affect each other. -/
theorem C8_tree_bounded_and_pruned :
    (∀ (d : ℕ) (fid : String) (visited : List String) (t : RootNode),
      build_tree d fid visited = some t → rootPathNodes t ≤ d + 1) ∧
    (∀ (d : ℕ) (fid : String) (visited : List String) (t : RootNode),
      build_tree d fid visited = some t →
      ∀ c ∈ t.progressions, c.entry.target_fault ∈ fid :: visited →
        c.children = []) ∧
    (get_full_progression_chain "OVERLOAD" 5).isSome = true :=
  ⟨build_tree_depth_bound, build_tree_pruned, by decide⟩

/-- Witness for C8 at the terminal scenario PUMP_SEIZURE with depth 2. -/
theorem C8_tree_bounded_and_pruned_witness :
    rootPathNodes ⟨"PUMP_SEIZURE", "⛔ Pump Seizure", 4, []⟩ ≤ 2 + 1 :=
  C8_tree_bounded_and_pruned.1 2 "PUMP_SEIZURE" []
    ⟨"PUMP_SEIZURE", "⛔ Pump Seizure", 4, []⟩ rfl

/-- A nonempty list of childless children has height 1. -/
theorem heightList_leaf_children (l : List ProgEntry) (h : l ≠ []) :
    heightList (l.map (fun pr => ChildNode.mk pr [])) = 1 := by
  induction l with
  | nil => exact absurd rfl h
  | cons x xs ih =>
    by_cases hxs : xs = []
    · subst hxs
      simp [heightList]
    · simp [heightList, ih hxs]

/-- C8 counterexample to the claim as stated: with `max_depth = 1` the
tree rooted at FILTER_CLOGGING already contains a root-to-leaf path of
2 nodes (the root plus an unexpanded child), exceeding `max_depth`. -/
theorem rootPathNodes_mk (a b : String) (c : ℕ) (l : List ChildNode) :
    rootPathNodes ⟨a, b, c, l⟩ = 1 + heightList l := rfl

theorem C8_depth_counterexample :
    (build_tree 1 "FILTER_CLOGGING" []).map rootPathNodes = some 2 ∧ 1 < 2 := by
  refine ⟨?_, by omega⟩
  have h1 : build_tree 1 "FILTER_CLOGGING" [] =
      some ⟨"FILTER_CLOGGING", scFILTER_CLOGGING.display_name,
        scFILTER_CLOGGING.severity.val,
        (get_fault_progression "FILTER_CLOGGING").map (fun pr => ChildNode.mk pr [])⟩ := rfl
  have h2 : get_fault_progression "FILTER_CLOGGING" ≠ [] := by decide
  rw [h1, Option.map_some', rootPathNodes_mk, heightList_leaf_children _ h2]

/-- Third component (the `total_checks` increment) of a present range
check is always 1. -/
theorem rangeCheck_total_some (r : ℚ × ℚ) (value full nearPts : ℚ) (nt : ℚ → ℚ → Bool) :
    (rangeCheck (some r) value full nearPts nt).2.2 = 1 := by
  rcases r with ⟨lo, hi⟩
  show ((if lo ≤ value ∧ value ≤ hi then (full, 1, 1)
    else if nt lo hi then (nearPts, 0, 1) else (0, 0, 1)) : ℚ × ℕ × ℕ).2.2 = 1
  split_ifs <;> rfl

/-- An absent range contributes no check. -/
theorem rangeCheck_total_none (value full nearPts : ℚ) (nt : ℚ → ℚ → Bool) :
    (rangeCheck none value full nearPts nt).2.2 = 0 := rfl

/-- The second pressure block counts one check when the range is
present. -/
theorem pressureCheck2_total_some (sid : String) (r : ℚ × ℚ) (p : ℚ) :
    (pressureCheck2 sid (some r) p).2.2 = 1 := by
  rcases r with ⟨lo, hi⟩
  show ((if lo ≤ p ∧ p ≤ hi then
      (if sid = "CAVITATION" ∧ p < 5/2 then 3 else 1, 1, 1)
    else if decide (p > lo * (4/5)) then (2/5, 0, 1)
    else (0, 0, 1)) : ℚ × ℕ × ℕ).2.2 = 1
  split_ifs <;> rfl

/-- The FILTER_CLOGGING scenario always has 5 counted checks, whatever
the sample values: `total_checks` depends only on which ranges a
scenario declares. -/
theorem scoreScenario_FILTER_total (v t c imb V p f : ℚ) :
    (scoreScenario "FILTER_CLOGGING" thFILTER_CLOGGING v t c imb V p f).2.2 = 5 := by
  simp [scoreScenario, addT, thFILTER_CLOGGING, rangeCheck_total_some, rangeCheck_total_none,
    pressureCheck2_total_some, voltageCheck]

/-- Hence the FILTER_CLOGGING scenario always produces a score entry. -/
theorem scenarioEntry_FILTER_isSome (v t c imb V p f : ℚ) :
    (scenarioEntry "FILTER_CLOGGING" thFILTER_CLOGGING v t c imb V p f).isSome = true := by
  have htot := scoreScenario_FILTER_total v t c imb V p f
  simp only [scenarioEntry]
  rw [if_neg (show ¬("FILTER_CLOGGING" = "NORMAL") by decide)]
  rw [htot]
  norm_num

/-- The `scenario_scores` dict is never empty: every scenario declares
threshold ranges, and an entry is recorded whenever `total_checks > 0`,
regardless of the score.  The guard `not scenario_scores` of the
normal-operation return is therefore never satisfied. -/
theorem buildScores_ne_nil (v t c imb V p f : ℚ) :
    buildScores v t c imb V p f ≠ [] := by
  obtain ⟨e, he⟩ := Option.isSome_iff_exists.mp (scenarioEntry_FILTER_isSome v t c imb V p f)
  unfold buildScores scenarioThresholds
  simp only [List.filterMap_cons]
  rw [he]
  simp

/-- The baseline in-bounds sample: every dimension at its healthy
default, explicit label Normal. -/
def baselineSample : SensorData :=
  { amperage_average := some 10, amperage_imbalance_pct := some 0,
    voltage := some 400, vibration := some (3/2), temperature := some 65,
    pressure := some 5, flow_rate := some 15, fault_state := some "Normal" }

/-- The end-to-end example sample of the specification: vibration 5.8,
temperature 68, current 11, imbalance 2, pressure 2.0, flow 12,
fault_state Normal (voltage not supplied). -/
def c6Sample : SensorData :=
  { amperage_average := some 11, amperage_imbalance_pct := some 2,
    vibration := some (29/5), temperature := some 68,
    pressure := some 2, flow_rate := some 12, fault_state := some "Normal" }

theorem eFILTER_base :
    scenarioEntry "FILTER_CLOGGING" thFILTER_CLOGGING (3/2) 65 10 0 400 5 15 =
      some ("FILTER_CLOGGING", ⟨47/10, 47, 2, 5, 1⟩) := by
  norm_num [scenarioEntry, scoreScenario, addT, rangeCheck, voltageCheck, pressureCheck2,
    thFILTER_CLOGGING, min_def]
  all_goals exact fun h => absurd h (by decide)

theorem eMINOR_base :
    scenarioEntry "MINOR_VIBRATION" thMINOR_VIBRATION (3/2) 65 10 0 400 5 15 =
      some ("MINOR_VIBRATION", ⟨7/2, 175/3, 2, 3, 1⟩) := by
  norm_num [scenarioEntry, scoreScenario, addT, rangeCheck, voltageCheck, pressureCheck2,
    thMINOR_VIBRATION, min_def]
  all_goals exact fun h => absurd h (by decide)

theorem eCAV_base :
    scenarioEntry "CAVITATION" thCAVITATION (3/2) 65 10 0 400 5 15 =
      some ("CAVITATION", ⟨27/10, 27, 1, 5, 2⟩) := by
  norm_num [scenarioEntry, scoreScenario, addT, rangeCheck, voltageCheck, pressureCheck2,
    thCAVITATION, min_def]
  all_goals exact fun h => absurd h (by decide)

theorem eIMP_base :
    scenarioEntry "IMPELLER_WEAR" thIMPELLER_WEAR (3/2) 65 10 0 400 5 15 =
      some ("IMPELLER_WEAR", ⟨29/5, 160/3, 4, 6, 2⟩) := by
  norm_num [scenarioEntry, scoreScenario, addT, rangeCheck, voltageCheck, pressureCheck2,
    thIMPELLER_WEAR, min_def]
  all_goals exact fun h => absurd h (by decide)

theorem eSEAL_base :
    scenarioEntry "SEAL_LEAK" thSEAL_LEAK (3/2) 65 10 0 400 5 15 =
      some ("SEAL_LEAK", ⟨2, 30, 2, 4, 2⟩) := by
  norm_num [scenarioEntry, scoreScenario, addT, rangeCheck, voltageCheck, pressureCheck2,
    thSEAL_LEAK, min_def]
  all_goals exact fun h => absurd h (by decide)

theorem eBEAR_base :
    scenarioEntry "BEARING_WEAR" thBEARING_WEAR (3/2) 65 10 0 400 5 15 =
      some ("BEARING_WEAR", ⟨7/2, 45, 3, 5, 3⟩) := by
  norm_num [scenarioEntry, scoreScenario, addT, rangeCheck, voltageCheck, pressureCheck2,
    thBEARING_WEAR, min_def]
  all_goals exact fun h => absurd h (by decide)

theorem eWIND_base :
    scenarioEntry "WINDING_DEFECT" thWINDING_DEFECT (3/2) 65 10 0 400 5 15 =
      some ("WINDING_DEFECT", ⟨0, 0, 0, 4, 3⟩) := by
  norm_num [scenarioEntry, scoreScenario, addT, rangeCheck, voltageCheck, pressureCheck2,
    thWINDING_DEFECT, min_def]
  all_goals exact fun h => absurd h (by decide)

theorem eSUPPLY_base :
    scenarioEntry "SUPPLY_FAULT" thSUPPLY_FAULT (3/2) 65 10 0 400 5 15 =
      some ("SUPPLY_FAULT", ⟨0, 0, 0, 3, 3⟩) := by
  norm_num [scenarioEntry, scoreScenario, addT, rangeCheck, voltageCheck, pressureCheck2,
    thSUPPLY_FAULT, min_def]
  all_goals exact fun h => absurd h (by decide)

theorem eOVER_base :
    scenarioEntry "OVERLOAD" thOVERLOAD (3/2) 65 10 0 400 5 15 =
      some ("OVERLOAD", ⟨0, 0, 0, 4, 4⟩) := by
  norm_num [scenarioEntry, scoreScenario, addT, rangeCheck, voltageCheck, pressureCheck2,
    thOVERLOAD, min_def]
  all_goals exact fun h => absurd h (by decide)

theorem eSEIZ_base :
    scenarioEntry "PUMP_SEIZURE" thPUMP_SEIZURE (3/2) 65 10 0 400 5 15 =
      some ("PUMP_SEIZURE", ⟨2/5, 10/3, 0, 6, 4⟩) := by
  norm_num [scenarioEntry, scoreScenario, addT, rangeCheck, voltageCheck, pressureCheck2,
    thPUMP_SEIZURE, min_def]
  all_goals exact fun h => absurd h (by decide)

theorem eFILTER_c6 :
    scenarioEntry "FILTER_CLOGGING" thFILTER_CLOGGING (29/5) 68 11 2 400 2 12 =
      some ("FILTER_CLOGGING", ⟨17/5, 34, 2, 5, 1⟩) := by
  norm_num [scenarioEntry, scoreScenario, addT, rangeCheck, voltageCheck, pressureCheck2,
    thFILTER_CLOGGING, min_def]
  all_goals exact fun h => absurd h (by decide)

theorem eMINOR_c6 :
    scenarioEntry "MINOR_VIBRATION" thMINOR_VIBRATION (29/5) 68 11 2 400 2 12 =
      some ("MINOR_VIBRATION", ⟨7/2, 175/3, 2, 3, 1⟩) := by
  norm_num [scenarioEntry, scoreScenario, addT, rangeCheck, voltageCheck, pressureCheck2,
    thMINOR_VIBRATION, min_def]
  all_goals exact fun h => absurd h (by decide)

theorem eCAV_c6 :
    scenarioEntry "CAVITATION" thCAVITATION (29/5) 68 11 2 400 2 12 =
      some ("CAVITATION", ⟨9, 95, 5, 5, 2⟩) := by
  norm_num [scenarioEntry, scoreScenario, addT, rangeCheck, voltageCheck, pressureCheck2,
    thCAVITATION, min_def]
  all_goals exact fun h => absurd h (by decide)

theorem eIMP_c6 :
    scenarioEntry "IMPELLER_WEAR" thIMPELLER_WEAR (29/5) 68 11 2 400 2 12 =
      some ("IMPELLER_WEAR", ⟨69/10, 125/2, 4, 6, 2⟩) := by
  norm_num [scenarioEntry, scoreScenario, addT, rangeCheck, voltageCheck, pressureCheck2,
    thIMPELLER_WEAR, min_def]
  all_goals exact fun h => absurd h (by decide)

theorem eSEAL_c6 :
    scenarioEntry "SEAL_LEAK" thSEAL_LEAK (29/5) 68 11 2 400 2 12 =
      some ("SEAL_LEAK", ⟨1, 25/2, 0, 4, 2⟩) := by
  norm_num [scenarioEntry, scoreScenario, addT, rangeCheck, voltageCheck, pressureCheck2,
    thSEAL_LEAK, min_def]
  all_goals exact fun h => absurd h (by decide)

theorem eBEAR_c6 :
    scenarioEntry "BEARING_WEAR" thBEARING_WEAR (29/5) 68 11 2 400 2 12 =
      some ("BEARING_WEAR", ⟨19/10, 19, 1, 5, 3⟩) := by
  norm_num [scenarioEntry, scoreScenario, addT, rangeCheck, voltageCheck, pressureCheck2,
    thBEARING_WEAR, min_def]
  all_goals exact fun h => absurd h (by decide)

theorem eWIND_c6 :
    scenarioEntry "WINDING_DEFECT" thWINDING_DEFECT (29/5) 68 11 2 400 2 12 =
      some ("WINDING_DEFECT", ⟨2, 25, 1, 4, 3⟩) := by
  norm_num [scenarioEntry, scoreScenario, addT, rangeCheck, voltageCheck, pressureCheck2,
    thWINDING_DEFECT, min_def]
  all_goals exact fun h => absurd h (by decide)

theorem eSUPPLY_c6 :
    scenarioEntry "SUPPLY_FAULT" thSUPPLY_FAULT (29/5) 68 11 2 400 2 12 =
      some ("SUPPLY_FAULT", ⟨3/5, 10, 0, 3, 3⟩) := by
  norm_num [scenarioEntry, scoreScenario, addT, rangeCheck, voltageCheck, pressureCheck2,
    thSUPPLY_FAULT, min_def]
  all_goals exact fun h => absurd h (by decide)

theorem eOVER_c6 :
    scenarioEntry "OVERLOAD" thOVERLOAD (29/5) 68 11 2 400 2 12 =
      some ("OVERLOAD", ⟨0, 0, 0, 4, 4⟩) := by
  norm_num [scenarioEntry, scoreScenario, addT, rangeCheck, voltageCheck, pressureCheck2,
    thOVERLOAD, min_def]
  all_goals exact fun h => absurd h (by decide)

theorem eSEIZ_c6 :
    scenarioEntry "PUMP_SEIZURE" thPUMP_SEIZURE (29/5) 68 11 2 400 2 12 =
      some ("PUMP_SEIZURE", ⟨2, 50/3, 2, 6, 4⟩) := by
  norm_num [scenarioEntry, scoreScenario, addT, rangeCheck, voltageCheck, pressureCheck2,
    thPUMP_SEIZURE, min_def, show ¬("PUMP_SEIZURE" = "CAVITATION") from by decide,
    show ¬("PUMP_SEIZURE" = "NORMAL") from by decide]

/-- The full score dict on the baseline readings. -/
theorem buildScores_base :
    buildScores (3/2) 65 10 0 400 5 15 =
      [("FILTER_CLOGGING", ⟨47/10, 47, 2, 5, 1⟩),
       ("MINOR_VIBRATION", ⟨7/2, 175/3, 2, 3, 1⟩),
       ("CAVITATION", ⟨27/10, 27, 1, 5, 2⟩),
       ("IMPELLER_WEAR", ⟨29/5, 160/3, 4, 6, 2⟩),
       ("SEAL_LEAK", ⟨2, 30, 2, 4, 2⟩),
       ("BEARING_WEAR", ⟨7/2, 45, 3, 5, 3⟩),
       ("WINDING_DEFECT", ⟨0, 0, 0, 4, 3⟩),
       ("SUPPLY_FAULT", ⟨0, 0, 0, 3, 3⟩),
       ("OVERLOAD", ⟨0, 0, 0, 4, 4⟩),
       ("PUMP_SEIZURE", ⟨2/5, 10/3, 0, 6, 4⟩)] := by
  unfold buildScores scenarioThresholds
  simp only [List.filterMap_cons, List.filterMap_nil, eFILTER_base, eMINOR_base, eCAV_base,
    eIMP_base, eSEAL_base, eBEAR_base, eWIND_base, eSUPPLY_base, eOVER_base, eSEIZ_base]

/-- The full score dict on the C6 example readings. -/
theorem buildScores_c6 :
    buildScores (29/5) 68 11 2 400 2 12 =
      [("FILTER_CLOGGING", ⟨17/5, 34, 2, 5, 1⟩),
       ("MINOR_VIBRATION", ⟨7/2, 175/3, 2, 3, 1⟩),
       ("CAVITATION", ⟨9, 95, 5, 5, 2⟩),
       ("IMPELLER_WEAR", ⟨69/10, 125/2, 4, 6, 2⟩),
       ("SEAL_LEAK", ⟨1, 25/2, 0, 4, 2⟩),
       ("BEARING_WEAR", ⟨19/10, 19, 1, 5, 3⟩),
       ("WINDING_DEFECT", ⟨2, 25, 1, 4, 3⟩),
       ("SUPPLY_FAULT", ⟨3/5, 10, 0, 3, 3⟩),
       ("OVERLOAD", ⟨0, 0, 0, 4, 4⟩),
       ("PUMP_SEIZURE", ⟨2, 50/3, 2, 6, 4⟩)] := by
  unfold buildScores scenarioThresholds
  simp only [List.filterMap_cons, List.filterMap_nil, eFILTER_c6, eMINOR_c6, eCAV_c6,
    eIMP_c6, eSEAL_c6, eBEAR_c6, eWIND_c6, eSUPPLY_c6, eOVER_c6, eSEIZ_c6]

/-- The priority-first selection on the baseline readings picks
PUMP_SEIZURE at confidence 10/3 (priority 4 beats every
better-fitting lower-priority scenario). -/
theorem pickBest_base :
    pickBest (buildScores (3/2) 65 10 0 400 5 15) =
      some ("PUMP_SEIZURE", ⟨2/5, 10/3, 0, 6, 4⟩) := by
  rw [buildScores_base]
  norm_num [pickBest, List.foldl]

/-- The priority-first selection on the C6 readings picks PUMP_SEIZURE
at confidence 50/3, not CAVITATION at 95. -/
theorem pickBest_c6 :
    pickBest (buildScores (29/5) 68 11 2 400 2 12) =
      some ("PUMP_SEIZURE", ⟨2, 50/3, 2, 6, 4⟩) := by
  rw [buildScores_c6]
  norm_num [pickBest, List.foldl]

/-- Zeta-expanded form of `detectCore` (the `scores` let inlined). -/
theorem detectCore_unfold (v t c imb V p f : ℚ) (fs : String) :
    detectCore v t c imb V p f fs =
      if isNormalReading v t c imb V p f ∧ buildScores v t c imb V p f = [] then
        ("NORMAL", 100)
      else if fs ≠ "" ∧ fs ≠ "Normal" then
        match faultMapping fs with
        | some mapped =>
          if mapped ∈ thresholdKeys then (mapped, 95)
          else fromSensors (buildScores v t c imb V p f)
        | none => fromSensors (buildScores v t c imb V p f)
      else fromSensors (buildScores v t c imb V p f) := rfl

/-- `_detect_scenario_from_sensors` as `detectCore` of the extracted
readings. -/
theorem detect_unfold (d : SensorData) :
    detect_scenario_from_sensors d =
      detectCore (d.vibration.getD (3/2)) (d.temperature.getD 65)
        (d.amperage_average.getD 10) (d.amperage_imbalance_pct.getD 0)
        (d.voltage.getD 400) (d.pressure.getD 5) (d.flow_rate.getD 15)
        (d.fault_state.getD "Normal") := rfl

/-- What the explicit-label mapping guarantees about its inputs and
output: the label is nonempty, not the Normal label, and maps into the
threshold table. -/
theorem faultMapping_spec (fs m : String) (hm : faultMapping fs = some m) :
    fs ≠ "" ∧ fs ≠ "Normal" ∧ m ∈ thresholdKeys := by
  unfold faultMapping at hm
  split_ifs at hm with h1 h2 h3 h4 h5 h6 h7 h8 h9 h10
  all_goals first
    | exact Option.noConfusion hm
    | (injection hm with hm2; subst hm2; subst_vars; exact ⟨by decide, by decide, by decide⟩)

/-- Full classification of the baseline sample: the NORMAL branch is
skipped (the score dict is nonempty), the explicit label is Normal, the
best-scoring candidate PUMP_SEIZURE fails the 35 floor, so the result is
UNKNOWN at confidence 30. -/
theorem detect_base_eval :
    detect_scenario_from_sensors baselineSample = ("UNKNOWN", 30) := by
  rw [detect_unfold]
  show detectCore (3/2) 65 10 0 400 5 15 "Normal" = ("UNKNOWN", 30)
  rw [detectCore_unfold]
  rw [if_neg (fun hand => buildScores_ne_nil _ _ _ _ _ _ _ hand.2)]
  rw [if_neg (show ¬(("Normal" : String) ≠ "" ∧ ("Normal" : String) ≠ "Normal") by decide)]
  unfold fromSensors
  rw [pickBest_base]
  norm_num

/-- Full classification of the C6 example sample: UNKNOWN at 30. -/
theorem detect_c6_eval :
    detect_scenario_from_sensors c6Sample = ("UNKNOWN", 30) := by
  rw [detect_unfold]
  show detectCore (29/5) 68 11 2 400 2 12 "Normal" = ("UNKNOWN", 30)
  rw [detectCore_unfold]
  rw [if_neg (fun hand => buildScores_ne_nil _ _ _ _ _ _ _ hand.2)]
  rw [if_neg (show ¬(("Normal" : String) ≠ "" ∧ ("Normal" : String) ≠ "Normal") by decide)]
  unfold fromSensors
  rw [pickBest_c6]
  norm_num

/-- C4: a sample whose explicit `fault_state` label is present and maps
to a known scenario id classifies to that id at the fixed confidence
95, regardless of every sensor value in the sample. -/
theorem C4_explicit_label_authoritative (d : SensorData) (fs m : String)
    (hfs : d.fault_state = some fs) (hm : faultMapping fs = some m) :
    detect_scenario_from_sensors d = (m, 95) := by
  obtain ⟨hfs1, hfs2, hmk⟩ := faultMapping_spec fs m hm
  rw [detect_unfold, hfs, Option.getD_some, detectCore_unfold]
  rw [if_neg (fun hand => buildScores_ne_nil _ _ _ _ _ _ _ hand.2)]
  rw [if_pos ⟨hfs1, hfs2⟩]
  rw [hm]
  exact if_pos hmk

/-- Witness for C4: an explicit Cavitation label wins over absurd sensor
values. -/
theorem C4_explicit_label_authoritative_witness :
    detect_scenario_from_sensors
      ⟨some 999, some 999, some 999, some 999, some 999, some 999, some 999,
        some "Cavitation"⟩ = ("CAVITATION", 95) :=
  C4_explicit_label_authoritative _ "Cavitation" "CAVITATION" rfl rfl

/-- C5: the claim is the intended behavior, but the code cannot reach
it.  The baseline sample lies inside every NORMAL bound (and no scenario
outscores NORMAL's 100), yet classification returns UNKNOWN at 30
instead of NORMAL at 100: the normal-operation return is guarded by
`not scenario_scores`, and the score dict always holds every scenario
(see `buildScores_ne_nil`), so the branch is dead code. -/
theorem C5_normal_sample_misclassified :
    isNormalReading (3/2) 65 10 0 400 5 15 ∧
    detect_scenario_from_sensors baselineSample = ("UNKNOWN", 30) :=
  ⟨by norm_num [isNormalReading, normalBounds], detect_base_eval⟩

/-- C6 counterexample: the specification's end-to-end example sample
does not classify to CAVITATION. -/
theorem C6_counterexample :
    (detect_scenario_from_sensors c6Sample).1 = "UNKNOWN" ∧
    ("UNKNOWN" : String) ≠ "CAVITATION" :=
  ⟨by rw [detect_c6_eval], by decide⟩

/-- C6 (amended): the example sample classifies to UNKNOWN at
confidence 30 — the priority-first selection puts PUMP_SEIZURE
(priority 4, confidence 50/3) on top, where it fails the 35 acceptance
floor, so CAVITATION's confidence 95 is never selected; in particular
the result is not the bearing-wear scenario. -/
theorem C6_example_is_unknown :
    detect_scenario_from_sensors c6Sample = ("UNKNOWN", 30) ∧
    (detect_scenario_from_sensors c6Sample).1 ≠ "BEARING_WEAR" :=
  ⟨detect_c6_eval, by rw [detect_c6_eval]; decide⟩

/-- A sample with every field absent. -/
def emptySample : SensorData := {}

/-- The sample with every missing field replaced by the default the
extraction uses. -/
def fillDefaults (d : SensorData) : SensorData :=
  { amperage_average := some (d.amperage_average.getD 10),
    amperage_imbalance_pct := some (d.amperage_imbalance_pct.getD 0),
    voltage := some (d.voltage.getD 400),
    vibration := some (d.vibration.getD (3/2)),
    temperature := some (d.temperature.getD 65),
    pressure := some (d.pressure.getD 5),
    flow_rate := some (d.flow_rate.getD 15),
    fault_state := some (d.fault_state.getD "Normal") }

/-- C10 counterexample: on the sample with every dimension missing, the
defaults (vibration 1.5, temperature 65, current 10, ...) are used, and
the MINOR_VIBRATION scenario still scores 7/2 (full weights from the
defaulted temperature and current), so a missing dimension is not
treated as "did not match". -/
theorem C10_counterexample :
    extractReadings emptySample = (3/2, 65, 10, 0, 400, 5, 15) ∧
    (scoreScenario "MINOR_VIBRATION" thMINOR_VIBRATION (3/2) 65 10 0 400 5 15).1 = 7/2 ∧
    (7/2 : ℚ) ≠ 0 := by
  refine ⟨rfl, ?_, by norm_num⟩
  norm_num [scoreScenario, addT, rangeCheck, voltageCheck, pressureCheck2, thMINOR_VIBRATION]

/-- C10 (amended): classification is total — a missing dimension never
raises — and behaves exactly as if each missing dimension carried its
fixed default baseline value. -/
theorem C10_missing_dims_use_defaults (d : SensorData) :
    detect_scenario_from_sensors d = detect_scenario_from_sensors (fillDefaults d) := rfl
